import Mathlib

/-!
Verification of the HemoPaths desktop shell's content-resolution core
(`src/main.js`): the hash utility (`calculateHash`), the error-page
provisioner (`createDefaultErrorPageIfMissing`), and the resolution
controller (`loadInitialContent` / `loadFromCacheOrErrorPage`).

The JavaScript code is shallowly embedded: the host environment
(DNS results, the single HTTP fetch outcome, file-system read/write
success, window liveness) is an explicit `Env`, the two persisted files
(cache slot and fallback document) are an explicit `FS`, and each
controller run returns the final file system, the display action taken,
and counters for fetch and cache-write attempts.
-/

set_option maxRecDepth 100000

namespace HemoPaths

/-! ## SHA-256 (the `crypto.createHash('sha256').digest('hex')` call) -/

/-- Truncate to a 32-bit word. -/
def w32 (n : Nat) : Nat := n % 4294967296

/-- Rotate a 32-bit word right by n bits. -/
def rotr (n x : Nat) : Nat := w32 ((x >>> n) ||| (x <<< (32 - n)))

/-- Three-way xor. -/
def xor3 (a b c : Nat) : Nat := Nat.xor (Nat.xor a b) c

/-- SHA-256 choice function (¬x taken as xor with 0xffffffff). -/
def chF (x y z : Nat) : Nat := Nat.xor (Nat.land x y) (Nat.land (Nat.xor x 4294967295) z)

/-- SHA-256 majority function. -/
def majF (x y z : Nat) : Nat := xor3 (Nat.land x y) (Nat.land x z) (Nat.land y z)

/-- SHA-256 big sigma 0. -/
def bigSigma0 (x : Nat) : Nat := xor3 (rotr 2 x) (rotr 13 x) (rotr 22 x)

/-- SHA-256 big sigma 1. -/
def bigSigma1 (x : Nat) : Nat := xor3 (rotr 6 x) (rotr 11 x) (rotr 25 x)

/-- SHA-256 small sigma 0. -/
def smallSigma0 (x : Nat) : Nat := xor3 (rotr 7 x) (rotr 18 x) (x >>> 3)

/-- SHA-256 small sigma 1. -/
def smallSigma1 (x : Nat) : Nat := xor3 (rotr 17 x) (rotr 19 x) (x >>> 10)

/-- The 64 SHA-256 round constants. -/
def sha256K : List Nat :=
  [1116352408, 1899447441, 3049323471, 3921009573, 961987163,
   1508970993, 2453635748, 2870763221, 3624381080, 310598401,
   607225278, 1426881987, 1925078388, 2162078206, 2614888103,
   3248222580, 3835390401, 4022224774, 264347078, 604807628,
   770255983, 1249150122, 1555081692, 1996064986, 2554220882,
   2821834349, 2952996808, 3210313671, 3336571891, 3584528711,
   113926993, 338241895, 666307205, 773529912, 1294757372,
   1396182291, 1695183700, 1986661051, 2177026350, 2456956037,
   2730485921, 2820302411, 3259730800, 3345764771, 3516065817,
   3600352804, 4094571909, 275423344, 430227734, 506948616,
   659060556, 883997877, 958139571, 1322822218, 1537002063,
   1747873779, 1955562222, 2024104815, 2227730452, 2361852424,
   2428436474, 2756734187, 3204031479, 3329325298]

/-- The eight 32-bit words of a SHA-256 state. -/
structure Hash8 where
  a : Nat
  b : Nat
  c : Nat
  d : Nat
  e : Nat
  f : Nat
  g : Nat
  h : Nat
deriving DecidableEq

/-- SHA-256 initial state. -/
def initHash : Hash8 :=
  ⟨1779033703, 3144134277, 1013904242, 2773480762,
   1359893119, 2600822924, 528734635, 1541459225⟩

/-- One SHA-256 round; `kw` is the round constant already added to the schedule word. -/
def shaStep (st : Hash8) (kw : Nat) : Hash8 :=
  let t1 := w32 (st.h + bigSigma1 st.e + chF st.e st.f st.g + kw)
  let t2 := w32 (bigSigma0 st.a + majF st.a st.b st.c)
  ⟨w32 (t1 + t2), st.a, st.b, st.c, w32 (st.d + t1), st.e, st.f, st.g⟩

/-- Extend the message schedule by `n` words; `acc` holds the schedule so far, most recent first. -/
def scheduleAux : Nat → List Nat → List Nat
  | 0, acc => acc
  | n + 1, acc =>
      let w := w32 (smallSigma1 (acc.getD 1 0) + acc.getD 6 0 +
                    smallSigma0 (acc.getD 14 0) + acc.getD 15 0)
      scheduleAux n (w :: acc)

/-- Big-endian bytes to 32-bit words. -/
def toWords : List Nat → List Nat
  | b0 :: b1 :: b2 :: b3 :: rest => (((b0 * 256 + b1) * 256 + b2) * 256 + b3) :: toWords rest
  | _ => []

/-- Compress one 64-byte block into the running state. -/
def compressBlock (H : Hash8) (block : List Nat) : Hash8 :=
  let ws := toWords block
  let W := (scheduleAux 48 ws.reverse).reverse
  let st := (List.zipWith (· + ·) sha256K W).foldl shaStep H
  ⟨w32 (H.a + st.a), w32 (H.b + st.b), w32 (H.c + st.c), w32 (H.d + st.d),
   w32 (H.e + st.e), w32 (H.f + st.f), w32 (H.g + st.g), w32 (H.h + st.h)⟩

/-- Split a byte list into its 64-byte blocks (the input length is a multiple of 64). -/
def chunks64 (l : List Nat) : List (List Nat) :=
  (List.range (l.length / 64)).map (fun i => (l.drop (64 * i)).take 64)

/-- Big-endian 64-bit encoding of the message bit length. -/
def lenBytes8 (n : Nat) : List Nat :=
  [n >>> 56 % 256, n >>> 48 % 256, n >>> 40 % 256, n >>> 32 % 256,
   n >>> 24 % 256, n >>> 16 % 256, n >>> 8 % 256, n % 256]

/-- SHA-256 padding: 0x80, zeros, then the bit length, to a multiple of 64 bytes. -/
def padMessage (msg : List Nat) : List Nat :=
  let L := msg.length
  let zeros := (64 - (L + 9) % 64) % 64
  msg ++ 128 :: List.replicate zeros 0 ++ lenBytes8 (8 * L)

/-- UTF-8 encoding of one character. -/
def utf8Bytes (c : Char) : List Nat :=
  let n := c.toNat
  if n < 128 then [n]
  else if n < 2048 then [192 + n / 64, 128 + n % 64]
  else if n < 65536 then [224 + n / 4096, 128 + (n / 64) % 64, 128 + n % 64]
  else [240 + n / 262144, 128 + (n / 4096) % 64, 128 + (n / 64) % 64, 128 + n % 64]

/-- UTF-8 bytes of a string (node hashes the string's UTF-8 encoding). -/
def strBytes (s : String) : List Nat := s.data.foldr (fun c acc => utf8Bytes c ++ acc) []

/-- Lowercase hexadecimal digit. -/
def hexDigit (n : Nat) : Char := if n < 10 then Char.ofNat (48 + n) else Char.ofNat (87 + n)

/-- Eight lowercase hex digits of a 32-bit word. -/
def word2hex (w : Nat) : List Char :=
  [hexDigit (w >>> 28 % 16), hexDigit (w >>> 24 % 16), hexDigit (w >>> 20 % 16),
   hexDigit (w >>> 16 % 16), hexDigit (w >>> 12 % 16), hexDigit (w >>> 8 % 16),
   hexDigit (w >>> 4 % 16), hexDigit (w % 16)]

/-- Hex rendering of a SHA-256 state, as `digest('hex')` produces. -/
def hash8hex (H : Hash8) : String :=
  String.mk (word2hex H.a ++ word2hex H.b ++ word2hex H.c ++ word2hex H.d ++
             word2hex H.e ++ word2hex H.f ++ word2hex H.g ++ word2hex H.h)

/-- SHA-256 hex digest of a string. -/
def sha256hex (s : String) : String :=
  hash8hex ((chunks64 (padMessage (strBytes s))).foldl compressBlock initHash)

/-! ## The hash utility (main.js lines 44-47) -/

/-- A JavaScript value as far as `calculateHash`'s `typeof` test distinguishes it. -/
inductive JSVal where
  | str : String → JSVal
  | num : Int → JSVal
  | boolv : Bool → JSVal
  | nullv : JSVal
  | undef : JSVal
deriving DecidableEq

/-- Whether a JavaScript value is a string (`typeof content === 'string'`). -/
def JSVal.isStr : JSVal → Bool
  | .str _ => true
  | _ => false

/-- The hash utility `calculateHash(content)`: empty-string sentinel for non-strings, else the
SHA-256 hex digest (main.js lines 44-47). -/
def calculateHash (content : JSVal) : String :=
  match content with
  | .str s => sha256hex s
  | _ => ""

/-! ## Environment, file system, and outcomes -/

/-- Outcome of the single `net.request` GET issued by `loadInitialContent`:
either a response with a status code and fully accumulated body, or one of the
request-level failure events. -/
inductive FetchOutcome where
  | response : Nat → String → FetchOutcome
  | transportError : FetchOutcome
  | responseError : FetchOutcome
  | timedOut : FetchOutcome
deriving DecidableEq

/-- Failure classification produced by the fetch promise (main.js lines 126-144). -/
inductive FetchErr where
  | badStatus : Nat → FetchErr
  | transport : FetchErr
  | responseErr : FetchErr
  | requestTimedOut : FetchErr
deriving DecidableEq

/-- How the promise of main.js lines 126-144 settles for a given outcome:
a 2xx status resolves with the accumulated body; any other status rejects
with the status code; the `error` and `timeout` events reject distinctly. -/
def fetchClassify : FetchOutcome → Except FetchErr String
  | .response st body =>
      if 200 ≤ st ∧ st < 300 then .ok body else .error (.badStatus st)
  | .transportError => .error .transport
  | .responseError => .error .responseErr
  | .timedOut => .error .requestTimedOut

/-- The options object passed to `net.request` (main.js line 127). -/
structure RequestConfig where
  method : String
  url : String
  useSessionCookies : Bool
  timeoutMs : Nat
deriving DecidableEq

/-- The configured live site URL (main.js line 28). -/
def liveUrl : String := "https://hemopaths.vercel.app"

/-- The request options `method: GET, url: liveUrl, useSessionCookies: true, timeout: 15000` of main.js line 127. -/
def liveRequestConfig : RequestConfig :=
  { method := "GET", url := liveUrl, useSessionCookies := true, timeoutMs := 15000 }

/-- The host environment of one resolution run: DNS probe results, whether the
probe setup throws, window liveness, the fetch outcome, and which file-system
operations would succeed. -/
structure Env where
  dns1ok : Bool
  dns2ok : Bool
  probeThrows : Bool
  windowAlive : Bool
  fetchOutcome : FetchOutcome
  cacheReadOk : Bool
  cacheWriteOk : Bool
  errorPageWriteOk : Bool
  loadFileOk : Bool
deriving DecidableEq

/-- The two files the controller touches: the cache slot at `localCachePath`
and the fallback document at `defaultErrorPagePath`; `none` means absent. -/
structure FS where
  cacheFile : Option String
  errorPageFile : Option String
deriving DecidableEq

/-- The two well-known paths the controller displays files from. -/
inductive TargetPath where
  | cache
  | errorPage
deriving DecidableEq

/-- The display operation the run ends with: `mainWindow.loadFile` on one of
the two paths, `mainWindow.loadURL` on an inline data URL, or nothing (window
gone). -/
inductive DisplayAction where
  | noDisplay : DisplayAction
  | loadFile : TargetPath → DisplayAction
  | loadURL : String → DisplayAction
deriving DecidableEq

/-- Result of one resolution run: final files, display action, and counters of
fetch attempts and cache-write attempts. -/
structure RunResult where
  fs : FS
  display : DisplayAction
  fetchAttempts : Nat
  cacheWriteAttempts : Nat
deriving DecidableEq

/-! ## Inline data URLs (main.js lines 201 and 206) -/

/-- Whether `encodeURIComponent` leaves a character unescaped
(letters, digits, and `- _ . ! ~ * \x27 ( )`). -/
def isUnreservedURIChar (c : Char) : Bool :=
  let n := c.toNat
  (decide (65 ≤ n) && decide (n ≤ 90)) || (decide (97 ≤ n) && decide (n ≤ 122)) ||
  (decide (48 ≤ n) && decide (n ≤ 57)) || decide (n = 45) || decide (n = 95) ||
  decide (n = 46) || decide (n = 33) || decide (n = 126) || decide (n = 42) ||
  decide (n = 39) || decide (n = 40) || decide (n = 41)

/-- Uppercase hexadecimal digit. -/
def hexDigitUpper (n : Nat) : Char := if n < 10 then Char.ofNat (48 + n) else Char.ofNat (55 + n)

/-- Percent-encoding of one byte. -/
def percentByte (b : Nat) : List Char :=
  [Char.ofNat 37, hexDigitUpper (b / 16), hexDigitUpper (b % 16)]

/-- JavaScript's `encodeURIComponent`. -/
def encodeURIComponent (s : String) : String :=
  String.mk (s.data.foldr
    (fun c acc =>
      (if isUnreservedURIChar c then [c]
       else (utf8Bytes c).foldr (fun b a => percentByte b ++ a) []) ++ acc) [])

/-- The data URL built around an inline message:
`data:text/html;charset=utf-8,` followed by the encoded message. -/
def dataUrlOf (msg : String) : String :=
  "data:text/html;charset=utf-8," ++ encodeURIComponent msg

/-- The inline message of main.js line 201 (cache and error page both absent). -/
def criticalErrorMsg1 : String :=
  "<h1>Critical Error</h1><p>Application could not load any content and the default error page was also not found.</p>"

/-- The inline message of main.js line 206 (the catch handler). -/
def criticalErrorMsg2 : String :=
  "<h1>Critical Error</h1><p>Application could not load any content, and the default error page was also not found or failed to load.</p>"

/-! ## Error page provisioner (main.js lines 49-81) -/

/-- The static fallback document template of main.js lines 51-73. -/
def defaultHtmlContent : String :=
  "\n            <!DOCTYPE html>\n            <html lang=\"en\" dir=\"ltr\">\n            <head>\n                <meta charset=\"UTF-8\"><title>Application Offline</title>\n                <style>\n                    body \x7b font-family: \x27Segoe UI\x27, Tahoma, Geneva, Verdana, sans-serif; text-align: center; padding: 50px; background-color: #12121a; color: #e0e0e0; display: flex; flex-direction: column; justify-content: center; align-items: center; height: 100vh; margin: 0; \x7d\n                    .container \x7b max-width: 500px; background-color: #1e1e2f; padding: 30px 40px; border-radius: 12px; box-shadow: 0 5px 25px rgba(0,0,0,0.3); \x7d\n                    h1 \x7b color: #ff6b6b; margin-bottom: 20px; font-size: 1.8em;\x7d\n                    p \x7b font-size: 1.1em; line-height: 1.6; color: #b0b8c0; margin-bottom: 15px;\x7d\n                    .suggestion \x7b margin-top: 25px; font-size: 0.9em; color: #8892a0;\x7d\n                    a \x7b color: #4fc3f7; text-decoration: none; \x7d\n                    a:hover \x7b text-decoration: underline; \x7d\n                </style>\n            </head>\n            <body>\n                <div class=\"container\">\n                    <h1>Oops, Content Could Not Be Loaded</h1>\n                    <p>The application is currently offline or had trouble fetching the latest data from the server.</p>\n                    <p class=\"suggestion\">Please check your internet connection. If you\x27ve used the app online before, a cached version might be available.</p>\n                </div>\n            </body>\n            </html>"

/-- The provisioner `createDefaultErrorPageIfMissing` (main.js lines 49-81): if the fallback
document exists nothing happens; otherwise one write is attempted, and a write
failure is logged and swallowed. Returns the file system and the number of
write attempts. -/
def createDefaultErrorPageIfMissing (e : Env) (fs : FS) : FS × Nat :=
  match fs.errorPageFile with
  | some _ => (fs, 0)
  | none =>
      if e.errorPageWriteOk then ({ fs with errorPageFile := some defaultHtmlContent }, 1)
      else (fs, 1)

/-! ## Connectivity prober (main.js lines 84-121) -/

/-- The two-tier connectivity verdict: any exception during probing means
offline; else the host lookup, and on its failure the google.com lookup,
decides. -/
def isEffectivelyOnline (e : Env) : Bool :=
  if e.probeThrows then false
  else if e.dns1ok then true
  else e.dns2ok

/-! ## The fallback loader (main.js lines 186-208) -/

/-- The fallback loader `loadFromCacheOrErrorPage`: bail out if the window is gone; load the cache
file if present, else the fallback document if present, else `loadURL` the
first inline message. A `loadFile` rejection is caught and answered with the
second inline message. -/
def loadFromCacheOrErrorPage (e : Env) (fs : FS) : DisplayAction :=
  if e.windowAlive then
    match fs.cacheFile with
    | some _ =>
        if e.loadFileOk then .loadFile .cache
        else .loadURL (dataUrlOf criticalErrorMsg2)
    | none =>
        match fs.errorPageFile with
        | some _ =>
            if e.loadFileOk then .loadFile .errorPage
            else .loadURL (dataUrlOf criticalErrorMsg2)
        | none => .loadURL (dataUrlOf criticalErrorMsg1)
  else .noDisplay

/-! ## The resolution controller (main.js lines 83-184) -/

/-- The cache content as read at main.js lines 149-156: absent file or a
failed read both leave the old content as the empty string. -/
def readCachedContent (e : Env) (fs : FS) : String :=
  match fs.cacheFile with
  | some c => if e.cacheReadOk then c else ""
  | none => ""

/-- The display step of main.js line 171: re-check the window, then
`loadFile(localCachePath)`; a rejection (missing file or load failure) is
caught by line 176 and handled by `loadFromCacheOrErrorPage`. -/
def displayCacheAfterCheck (e : Env) (fs : FS) : DisplayAction :=
  if e.windowAlive then
    if fs.cacheFile.isSome && e.loadFileOk then .loadFile .cache
    else loadFromCacheOrErrorPage e fs
  else .noDisplay

/-- The controller `loadInitialContent` (main.js lines 83-184), one resolution run:
probe connectivity; if online and the window is alive, perform the single
fetch; on a 2xx response with a truthy (non-empty) body compare SHA-256
fingerprints against the cache read and write the cache only when they
differ; display via the cache slot, with every failure falling through to
`loadFromCacheOrErrorPage`. -/
def loadInitialContent (e : Env) (fs : FS) : RunResult :=
  if isEffectivelyOnline e && e.windowAlive then
    match fetchClassify e.fetchOutcome with
    | .ok content =>
        if content = "" then
          { fs := fs, display := loadFromCacheOrErrorPage e fs,
            fetchAttempts := 1, cacheWriteAttempts := 0 }
        else
          let oldContent := readCachedContent e fs
          if calculateHash (.str content) = calculateHash (.str oldContent) then
            { fs := fs, display := displayCacheAfterCheck e fs,
              fetchAttempts := 1, cacheWriteAttempts := 0 }
          else
            if e.cacheWriteOk then
              let fs2 : FS := { fs with cacheFile := some content }
              { fs := fs2, display := displayCacheAfterCheck e fs2,
                fetchAttempts := 1, cacheWriteAttempts := 1 }
            else
              { fs := fs, display := loadFromCacheOrErrorPage e fs,
                fetchAttempts := 1, cacheWriteAttempts := 1 }
    | .error _ =>
        { fs := fs, display := loadFromCacheOrErrorPage e fs,
          fetchAttempts := 1, cacheWriteAttempts := 0 }
  else if e.windowAlive then
    { fs := fs, display := loadFromCacheOrErrorPage e fs,
      fetchAttempts := 0, cacheWriteAttempts := 0 }
  else
    { fs := fs, display := .noDisplay,
      fetchAttempts := 0, cacheWriteAttempts := 0 }


/-! ## Concrete inputs used by witnesses and counterexamples -/

/-- A fully healthy online environment fetching a 200 response with body "X". -/
def envBase : Env :=
  { dns1ok := true, dns2ok := true, probeThrows := false, windowAlive := true,
    fetchOutcome := .response 200 "X", cacheReadOk := true, cacheWriteOk := true,
    errorPageWriteOk := true, loadFileOk := true }

/-- The base environment with a failing cache write and a fetched body "A". -/
def envWriteFail : Env :=
  { envBase with cacheWriteOk := false, fetchOutcome := .response 200 "A" }

/-- An environment in which every fallible capability fails at once. -/
def envAllIOFail : Env :=
  { envBase with
    dns1ok := false, dns2ok := false, fetchOutcome := .transportError,
    cacheReadOk := false, cacheWriteOk := false, errorPageWriteOk := false, loadFileOk := false }

/-- The base environment whose fetch returns status 200 with an empty body. -/
def envFetchEmpty : Env := { envBase with fetchOutcome := .response 200 "" }

/-! ## Helper lemmas -/

/-- A 32-bit word renders as exactly eight hex characters. -/
theorem word2hex_length (w : Nat) : (word2hex w).length = 8 := rfl

/-- A SHA-256 state renders as exactly 64 hex characters. -/
theorem hash8hex_length (H : Hash8) : (hash8hex H).length = 64 := rfl

/-- With a live window, the fallback loader always performs some display. -/
theorem fallback_always_displays (e : Env) (fs : FS) (hwin : e.windowAlive = true) :
    loadFromCacheOrErrorPage e fs ≠ .noDisplay := by
  unfold loadFromCacheOrErrorPage
  rw [hwin]
  cases fs.cacheFile <;> cases fs.errorPageFile <;> cases hl : e.loadFileOk <;> simp

/-! ## C7: the hash utility contract -/

/-- C7: `calculateHash` returns a fixed-length (64 hex character) digest for
every string input, is deterministic (a pure function of the input bytes), and
returns the empty-string sentinel on every non-string input. -/
theorem calculateHash_contract :
    (∀ s : String, (calculateHash (.str s)).length = 64) ∧
    (∀ s t : String, s = t → calculateHash (.str s) = calculateHash (.str t)) ∧
    (∀ v : JSVal, v.isStr = false → calculateHash v = "") := by
  refine ⟨fun s => hash8hex_length _, fun s t h => by rw [h], fun v hv => ?_⟩
  cases v <;> simp_all [JSVal.isStr, calculateHash]

/-- C7 witness at concrete inputs. -/
theorem calculateHash_contract_witness :
    (calculateHash (.str "abc")).length = 64 ∧
    calculateHash (.str "abc") = calculateHash (.str "abc") ∧
    calculateHash .nullv = "" :=
  ⟨calculateHash_contract.1 "abc", calculateHash_contract.2.1 "abc" "abc" rfl,
   calculateHash_contract.2.2 .nullv rfl⟩

/-! ## C9: the error page provisioner is lazy and never overwrites -/

/-- C9: when the fallback document already exists, `ensureExists` leaves the
file system byte-unchanged and attempts no write; when it is missing and the
write fails, the failure is swallowed (the call still returns, with the file
system unchanged and exactly the one failed attempt recorded). -/
theorem errorPage_provisioner_frame :
    (∀ (e : Env) (fs : FS) (c : String), fs.errorPageFile = some c →
      createDefaultErrorPageIfMissing e fs = (fs, 0)) ∧
    (∀ (e : Env) (fs : FS), fs.errorPageFile = none → e.errorPageWriteOk = false →
      createDefaultErrorPageIfMissing e fs = (fs, 1)) := by
  constructor
  · intro e fs c h
    unfold createDefaultErrorPageIfMissing
    rw [h]
  · intro e fs h hw
    unfold createDefaultErrorPageIfMissing
    rw [h, hw]
    simp

/-- C9 witness: an existing fallback document is untouched, and a failing
creation is swallowed. -/
theorem errorPage_provisioner_frame_witness :
    createDefaultErrorPageIfMissing envBase ⟨none, some "old page"⟩ =
      (⟨none, some "old page"⟩, 0) ∧
    createDefaultErrorPageIfMissing { envBase with errorPageWriteOk := false } ⟨none, none⟩ =
      (⟨none, none⟩, 1) :=
  ⟨errorPage_provisioner_frame.1 envBase ⟨none, some "old page"⟩ "old page" rfl,
   errorPage_provisioner_frame.2 { envBase with errorPageWriteOk := false } ⟨none, none⟩ rfl rfl⟩

/-! ## C10: a dead window short-circuits the whole run -/

/-- C10: when the window is already null or destroyed, the run performs no
fetch, no cache write, and no display operation, and leaves the file system
unchanged — even when connectivity is reachable. -/
theorem deadWindow_run_is_noop (e : Env) (fs : FS) (h : e.windowAlive = false) :
    (loadInitialContent e fs).fetchAttempts = 0 ∧
    (loadInitialContent e fs).cacheWriteAttempts = 0 ∧
    (loadInitialContent e fs).display = .noDisplay ∧
    (loadInitialContent e fs).fs = fs := by
  unfold loadInitialContent
  rw [h]
  simp

/-- C10 witness: reachable connectivity, healthy fetch, dead window. -/
theorem deadWindow_run_is_noop_witness :
    (loadInitialContent { envBase with windowAlive := false } ⟨some "C", some "E"⟩).fetchAttempts
      = 0 ∧
    (loadInitialContent { envBase with windowAlive := false }
      ⟨some "C", some "E"⟩).cacheWriteAttempts = 0 ∧
    (loadInitialContent { envBase with windowAlive := false } ⟨some "C", some "E"⟩).display
      = .noDisplay ∧
    (loadInitialContent { envBase with windowAlive := false } ⟨some "C", some "E"⟩).fs
      = ⟨some "C", some "E"⟩ :=
  deadWindow_run_is_noop { envBase with windowAlive := false } ⟨some "C", some "E"⟩ rfl

/-! ## C3: unreachable means no fetch, straight to fallback -/

/-- C3: when the prober reports unreachable, the fetcher is never invoked
(zero fetch attempts), the file system is untouched, the controller goes
directly to the fallback loader, and with a cache holding `y` (and a working
display) the displayed source is the cache slot still holding `y`. -/
theorem unreachable_no_fetch (e : Env) (fs : FS) (hoff : isEffectivelyOnline e = false) :
    (loadInitialContent e fs).fetchAttempts = 0 ∧
    (loadInitialContent e fs).fs = fs ∧
    (e.windowAlive = true →
      (loadInitialContent e fs).display = loadFromCacheOrErrorPage e fs) ∧
    (∀ y : String, e.windowAlive = true → e.loadFileOk = true → fs.cacheFile = some y →
      (loadInitialContent e fs).display = .loadFile .cache ∧
      (loadInitialContent e fs).fs.cacheFile = some y) := by
  unfold loadInitialContent
  rw [hoff]
  cases hw : e.windowAlive <;>
    simp_all [loadFromCacheOrErrorPage]

/-- C3 witness: offline environment with the cache holding "Y". -/
theorem unreachable_no_fetch_witness :
    (loadInitialContent { envBase with dns1ok := false, dns2ok := false }
      ⟨some "Y", none⟩).fetchAttempts = 0 ∧
    (loadInitialContent { envBase with dns1ok := false, dns2ok := false }
      ⟨some "Y", none⟩).display = .loadFile .cache ∧
    (loadInitialContent { envBase with dns1ok := false, dns2ok := false }
      ⟨some "Y", none⟩).fs.cacheFile = some "Y" := by
  refine ⟨(unreachable_no_fetch { envBase with dns1ok := false, dns2ok := false }
    ⟨some "Y", none⟩ rfl).1, ?_, ?_⟩
  · exact ((unreachable_no_fetch { envBase with dns1ok := false, dns2ok := false }
      ⟨some "Y", none⟩ rfl).2.2.2 "Y" rfl rfl rfl).1
  · exact ((unreachable_no_fetch { envBase with dns1ok := false, dns2ok := false }
      ⟨some "Y", none⟩ rfl).2.2.2 "Y" rfl rfl rfl).2

/-! ## C8: the remote fetcher contract -/

/-- C8: the single GET request carries a 15000 ms timeout against the live
URL; a 2xx status resolves to the full accumulated body; any other status
rejects with a bad-status condition carrying the code; timeout and transport
errors reject as their own distinct conditions; and a resolution run never
performs more than one fetch attempt (no retries). -/
theorem remoteFetcher_contract :
    liveRequestConfig.method = "GET" ∧
    liveRequestConfig.timeoutMs = 15000 ∧
    liveRequestConfig.url = liveUrl ∧
    (∀ (st : Nat) (body : String), 200 ≤ st → st < 300 →
      fetchClassify (.response st body) = .ok body) ∧
    (∀ (st : Nat) (body : String), ¬ (200 ≤ st ∧ st < 300) →
      fetchClassify (.response st body) = .error (.badStatus st)) ∧
    fetchClassify .timedOut = .error .requestTimedOut ∧
    fetchClassify .transportError = .error .transport ∧
    (∀ (e : Env) (fs : FS), (loadInitialContent e fs).fetchAttempts ≤ 1) := by
  refine ⟨rfl, rfl, rfl, ?_, ?_, rfl, rfl, ?_⟩
  · intro st body h1 h2
    simp [fetchClassify, h1, h2]
  · intro st body h
    simp [fetchClassify, h]
  · intro e fs
    unfold loadInitialContent
    repeat' split
    all_goals (first | (rw [apply_ite RunResult.fetchAttempts] ; simp) | simp)

/-- C8 witness: concrete classifications and a concrete single-fetch run. -/
theorem remoteFetcher_contract_witness :
    fetchClassify (.response 200 "X") = .ok "X" ∧
    fetchClassify (.response 500 "oops") = .error (.badStatus 500) ∧
    (loadInitialContent envBase ⟨none, none⟩).fetchAttempts ≤ 1 :=
  ⟨remoteFetcher_contract.2.2.2.1 200 "X" (by decide) (by decide),
   remoteFetcher_contract.2.2.2.2.1 500 "oops" (by decide),
   remoteFetcher_contract.2.2.2.2.2.2.2 envBase ⟨none, none⟩⟩

/-! ## C2: fingerprint short-circuit and idempotence -/

/-- C2: if the fetched content's fingerprint equals the fingerprint of the
cache read, the run attempts no cache write; and under working cache I/O,
running the full procedure twice with the same environment leaves the cache
slot byte-identical with zero write attempts on the second run. -/
theorem fingerprint_short_circuit_idempotent (e : Env) (fs : FS)
    (hr : e.cacheReadOk = true) (hw : e.cacheWriteOk = true) :
    (∀ body : String, fetchClassify e.fetchOutcome = .ok body →
      calculateHash (.str body) = calculateHash (.str (readCachedContent e fs)) →
      (loadInitialContent e fs).cacheWriteAttempts = 0) ∧
    (loadInitialContent e (loadInitialContent e fs).fs).fs = (loadInitialContent e fs).fs ∧
    (loadInitialContent e (loadInitialContent e fs).fs).cacheWriteAttempts = 0 := by
  refine ⟨?_, ?_⟩
  · intro body hf hh
    cases hon : isEffectivelyOnline e with
    | false => cases hwin : e.windowAlive <;> simp [loadInitialContent, hon, hwin]
    | true =>
        cases hwin : e.windowAlive with
        | false => simp [loadInitialContent, hon, hwin]
        | true =>
            by_cases hb : body = ""
            · simp [loadInitialContent, hon, hwin, hf, hb]
            · simp [loadInitialContent, hon, hwin, hf, hb, hh]
  · cases hon : isEffectivelyOnline e with
    | false => cases hwin : e.windowAlive <;> simp [loadInitialContent, hon, hwin]
    | true =>
        cases hwin : e.windowAlive with
        | false => simp [loadInitialContent, hon, hwin]
        | true =>
            cases hf : fetchClassify e.fetchOutcome with
            | error err => simp [loadInitialContent, hon, hwin, hf]
            | ok body =>
                by_cases hb : body = ""
                · simp [loadInitialContent, hon, hwin, hf, hb]
                · by_cases hh : calculateHash (.str body) =
                      calculateHash (.str (readCachedContent e fs))
                  · simp [loadInitialContent, hon, hwin, hf, hb, hh]
                  · have h2 : readCachedContent e
                        { cacheFile := some body, errorPageFile := fs.errorPageFile } = body := by
                      simp [readCachedContent, hr]
                    simp [loadInitialContent, hon, hwin, hf, hb, hh, hw, h2]

/-- C2 witness: fetching "Y" with the cache already holding "Y" writes
nothing, and a second identical run after a first run writes nothing. -/
theorem fingerprint_short_circuit_idempotent_witness :
    (loadInitialContent { envBase with fetchOutcome := .response 200 "Y" }
      ⟨some "Y", none⟩).cacheWriteAttempts = 0 ∧
    (loadInitialContent { envBase with fetchOutcome := .response 200 "Y" }
      (loadInitialContent { envBase with fetchOutcome := .response 200 "Y" }
        ⟨some "Y", none⟩).fs).fs =
      (loadInitialContent { envBase with fetchOutcome := .response 200 "Y" }
        ⟨some "Y", none⟩).fs ∧
    (loadInitialContent { envBase with fetchOutcome := .response 200 "Y" }
      (loadInitialContent { envBase with fetchOutcome := .response 200 "Y" }
        ⟨some "Y", none⟩).fs).cacheWriteAttempts = 0 :=
  ⟨(fingerprint_short_circuit_idempotent { envBase with fetchOutcome := .response 200 "Y" }
      ⟨some "Y", none⟩ rfl rfl).1 "Y" rfl rfl,
   (fingerprint_short_circuit_idempotent { envBase with fetchOutcome := .response 200 "Y" }
      ⟨some "Y", none⟩ rfl rfl).2.1,
   (fingerprint_short_circuit_idempotent { envBase with fetchOutcome := .response 200 "Y" }
      ⟨some "Y", none⟩ rfl rfl).2.2⟩

/-! ## C4: a failed cache write falls through to the fallback path -/

/-- C4: when the fetch succeeds (truthy body, differing fingerprints) but the
cache write fails, the controller falls through to the fallback loader on the
unchanged file system — it never displays the in-memory fetched buffer — the
one failed write attempt is recorded, and the run still ends in a display. -/
theorem writeFailure_falls_back (e : Env) (fs : FS) (body : String)
    (hon : isEffectivelyOnline e = true) (hwin : e.windowAlive = true)
    (hf : fetchClassify e.fetchOutcome = .ok body) (hb : body ≠ "")
    (hh : calculateHash (.str body) ≠ calculateHash (.str (readCachedContent e fs)))
    (hwfail : e.cacheWriteOk = false) :
    (loadInitialContent e fs).display = loadFromCacheOrErrorPage e fs ∧
    (loadInitialContent e fs).fs = fs ∧
    (loadInitialContent e fs).cacheWriteAttempts = 1 ∧
    (loadInitialContent e fs).display ≠ .noDisplay := by
  have hd : (loadInitialContent e fs).display = loadFromCacheOrErrorPage e fs := by
    simp [loadInitialContent, hon, hwin, hf, hb, hh, hwfail]
  refine ⟨hd, ?_, ?_, ?_⟩
  · simp [loadInitialContent, hon, hwin, hf, hb, hh, hwfail]
  · simp [loadInitialContent, hon, hwin, hf, hb, hh, hwfail]
  · rw [hd]
    exact fallback_always_displays e fs hwin

/-- C4 witness: fetched "A" over an absent cache with a failing write falls
back to the existing error page. -/
theorem writeFailure_falls_back_witness :
    (loadInitialContent envWriteFail ⟨none, some "E"⟩).display =
      loadFromCacheOrErrorPage envWriteFail ⟨none, some "E"⟩ ∧
    (loadInitialContent envWriteFail ⟨none, some "E"⟩).fs = ⟨none, some "E"⟩ ∧
    (loadInitialContent envWriteFail ⟨none, some "E"⟩).cacheWriteAttempts = 1 ∧
    (loadInitialContent envWriteFail ⟨none, some "E"⟩).display ≠ .noDisplay :=
  writeFailure_falls_back envWriteFail ⟨none, some "E"⟩ "A"
    rfl rfl rfl (by decide) (by decide) rfl

/-! ## C5: the terminal inline fallback -/

/-- C5: with the window alive but both the cache slot and the fallback
document absent, the fallback loader displays the synthesized inline message
as a data URL; the message is non-empty, something is always displayed, and
the outcome is the same in every environment (it depends on no fallible I/O). -/
theorem terminal_inline_fallback (e : Env) (fs : FS) (hwin : e.windowAlive = true)
    (hc : fs.cacheFile = none) (hep : fs.errorPageFile = none) :
    loadFromCacheOrErrorPage e fs = .loadURL (dataUrlOf criticalErrorMsg1) ∧
    criticalErrorMsg1 ≠ "" ∧
    dataUrlOf criticalErrorMsg1 ≠ "" ∧
    loadFromCacheOrErrorPage e fs ≠ .noDisplay ∧
    (∀ e2 : Env, e2.windowAlive = true →
      loadFromCacheOrErrorPage e2 fs = loadFromCacheOrErrorPage e fs) := by
  have key : ∀ e2 : Env, e2.windowAlive = true →
      loadFromCacheOrErrorPage e2 fs = .loadURL (dataUrlOf criticalErrorMsg1) := by
    intro e2 h2
    simp [loadFromCacheOrErrorPage, h2, hc, hep]
  refine ⟨key e hwin, by decide, by decide, ?_, fun e2 h2 => (key e2 h2).trans (key e hwin).symm⟩
  rw [key e hwin]
  simp

/-- C5 witness: every I/O capability failing at once still yields the inline
message. -/
theorem terminal_inline_fallback_witness :
    loadFromCacheOrErrorPage envAllIOFail ⟨none, none⟩ =
      .loadURL (dataUrlOf criticalErrorMsg1) ∧
    criticalErrorMsg1 ≠ "" ∧
    dataUrlOf criticalErrorMsg1 ≠ "" ∧
    loadFromCacheOrErrorPage envAllIOFail ⟨none, none⟩ ≠ .noDisplay :=
  ⟨(terminal_inline_fallback envAllIOFail ⟨none, none⟩ rfl rfl rfl).1,
   (terminal_inline_fallback envAllIOFail ⟨none, none⟩ rfl rfl rfl).2.1,
   (terminal_inline_fallback envAllIOFail ⟨none, none⟩ rfl rfl rfl).2.2.1,
   (terminal_inline_fallback envAllIOFail ⟨none, none⟩ rfl rfl rfl).2.2.2.1⟩

/-! ## C1: display always goes through the persisted cache slot -/

/-- C1 counterexample: a fetch that succeeds with status 200 and an empty
body, with fingerprints of the fetched and cached content equal (both empty),
is routed by the body-truthiness test to the fallback path: the displayed
source is the error page, not the cache slot. -/
theorem displays_via_slot_counterexample :
    fetchClassify envFetchEmpty.fetchOutcome = .ok "" ∧
    calculateHash (.str "") =
      calculateHash (.str (readCachedContent envFetchEmpty ⟨none, some "E"⟩)) ∧
    (loadInitialContent envFetchEmpty ⟨none, some "E"⟩).cacheWriteAttempts = 0 ∧
    (loadInitialContent envFetchEmpty ⟨none, some "E"⟩).display = .loadFile .errorPage ∧
    (loadInitialContent envFetchEmpty ⟨none, some "E"⟩).display ≠ .loadFile .cache :=
  ⟨rfl, by decide, by decide, by decide, by decide⟩

/-- C1 (amended to non-empty fetched bodies): when the fetch succeeds with a
truthy body and either the fingerprints differ and the write succeeds, or
they are equal and the cache slot exists, the controller displays from the
persisted cache slot path (never the in-memory buffer), and in the
differing-fingerprint case the slot afterwards holds exactly the fetched
content. -/
theorem displays_via_slot (e : Env) (fs : FS) (body : String)
    (hon : isEffectivelyOnline e = true) (hwin : e.windowAlive = true)
    (hload : e.loadFileOk = true)
    (hf : fetchClassify e.fetchOutcome = .ok body) (hb : body ≠ "")
    (hok : (calculateHash (.str body) ≠ calculateHash (.str (readCachedContent e fs)) ∧
            e.cacheWriteOk = true) ∨
           (calculateHash (.str body) = calculateHash (.str (readCachedContent e fs)) ∧
            fs.cacheFile.isSome = true)) :
    (loadInitialContent e fs).display = .loadFile .cache ∧
    (calculateHash (.str body) ≠ calculateHash (.str (readCachedContent e fs)) →
      (loadInitialContent e fs).fs.cacheFile = some body) := by
  rcases hok with ⟨hh, hw⟩ | ⟨hh, hsome⟩
  · constructor
    · simp [loadInitialContent, hon, hwin, hf, hb, hh, hw, displayCacheAfterCheck, hload]
    · intro _
      simp [loadInitialContent, hon, hwin, hf, hb, hh, hw]
  · constructor
    · simp [loadInitialContent, hon, hwin, hf, hb, hh, displayCacheAfterCheck, hload, hsome]
    · intro hcon
      exact absurd hh hcon

/-- C1 witness: the spec scenario — reachable, fetch returns 200 with body
"X", empty cache: the cache becomes "X" and the displayed source is the
cache slot. -/
theorem displays_via_slot_witness :
    (loadInitialContent envBase ⟨none, none⟩).display = .loadFile .cache ∧
    (loadInitialContent envBase ⟨none, none⟩).fs.cacheFile = some "X" :=
  ⟨(displays_via_slot envBase ⟨none, none⟩ "X" rfl rfl rfl rfl (by decide)
      (Or.inl ⟨by decide, rfl⟩)).1,
   (displays_via_slot envBase ⟨none, none⟩ "X" rfl rfl rfl rfl (by decide)
      (Or.inl ⟨by decide, rfl⟩)).2 (by decide)⟩

/-! ## C6: the first-ever fetch and the empty-string fingerprint -/

/-- C6 counterexample: with no cache file, a successful fetch whose payload
is the empty string triggers no cache write at all (the truthiness test
diverts it to the fallback path before any fingerprint comparison), so "for
every fetched text payload including the empty string, exactly one cache
write occurs" fails. -/
theorem firstFetch_writes_counterexample :
    fetchClassify envFetchEmpty.fetchOutcome = .ok "" ∧
    envFetchEmpty.cacheWriteOk = true ∧
    (loadInitialContent envFetchEmpty ⟨none, none⟩).cacheWriteAttempts = 0 ∧
    (loadInitialContent envFetchEmpty ⟨none, none⟩).fs.cacheFile = none :=
  ⟨rfl, rfl, by decide, by decide⟩

/-- C6 (amended to non-empty fetched payloads): with no cache file the
comparison treats the absent cache as the empty string, and exactly one cache
write occurs precisely when the fetched payload's fingerprint differs from
the empty-string fingerprint (as it does for every real-world non-empty
payload); when the write capability works, the slot then holds the payload. -/
theorem firstFetch_writes (e : Env) (fs : FS) (body : String)
    (hon : isEffectivelyOnline e = true) (hwin : e.windowAlive = true)
    (hf : fetchClassify e.fetchOutcome = .ok body) (hb : body ≠ "")
    (hc : fs.cacheFile = none) :
    readCachedContent e fs = "" ∧
    ((loadInitialContent e fs).cacheWriteAttempts = 1 ↔
      calculateHash (.str body) ≠ calculateHash (.str "")) ∧
    (calculateHash (.str body) ≠ calculateHash (.str "") → e.cacheWriteOk = true →
      (loadInitialContent e fs).fs.cacheFile = some body) := by
  have hrc : readCachedContent e fs = "" := by simp [readCachedContent, hc]
  refine ⟨hrc, ?_, ?_⟩
  · by_cases hh : calculateHash (.str body) = calculateHash (.str "")
    · simp [loadInitialContent, hon, hwin, hf, hb, hrc, hh]
    · cases hwk : e.cacheWriteOk <;>
        simp [loadInitialContent, hon, hwin, hf, hb, hrc, hh, hwk]
  · intro hh hwk
    simp [loadInitialContent, hon, hwin, hf, hb, hrc, hh, hwk]

/-- C6 witness: first-ever fetch of "X" over an absent cache attempts exactly
one write and the slot then holds "X". -/
theorem firstFetch_writes_witness :
    readCachedContent envBase ⟨none, none⟩ = "" ∧
    (loadInitialContent envBase ⟨none, none⟩).cacheWriteAttempts = 1 ∧
    (loadInitialContent envBase ⟨none, none⟩).fs.cacheFile = some "X" :=
  ⟨(firstFetch_writes envBase ⟨none, none⟩ "X" rfl rfl rfl (by decide) rfl).1,
   ((firstFetch_writes envBase ⟨none, none⟩ "X" rfl rfl rfl (by decide) rfl).2.1).mpr
     (by decide),
   (firstFetch_writes envBase ⟨none, none⟩ "X" rfl rfl rfl (by decide) rfl).2.2
     (by decide) rfl⟩

end HemoPaths
